import Mathlib

/-!
Verification of the recommendation scoring procedure of
`src/learning_decision.py` (functions `analyze_learning_path` and
`calculate_expected_effectiveness`), via a shallow embedding in Lean.

The Python code computes its confidence as `int(np.mean(scores) * 100)`
on IEEE-754 double-precision floats.  Every value that arises in that
computation is a normal, moderate-magnitude binary64 number, so the float
arithmetic is embedded exactly: a binary64 value is represented by the
rational number it denotes, and each arithmetic operation rounds its
exact rational result to 53 significant bits with round-to-nearest,
ties-to-even (the IEEE-754 default).  `np.mean` on an array of fewer
than 8 elements sums the elements sequentially from a zero accumulator
and divides by the length.

Exact rational values are represented by a raw numerator/denominator
pair `Frac` (denominators kept positive by construction); this keeps
every operation a plain integer computation that the kernel can
evaluate.
-/

namespace LearningDecision

/-! ### Exact rational arithmetic and the binary64 model -/

/-- An unreduced fraction `num / den`.  Every `Frac` built in this
development has a positive denominator, and the operations below are
only used on such values. -/
structure Frac where
  num : ℤ
  den : ℤ
  deriving DecidableEq

namespace Frac

/-- The fraction `n / 1`. -/
def ofInt (n : ℤ) : Frac := ⟨n, 1⟩

/-- Exact addition of fractions. -/
def add (a b : Frac) : Frac := ⟨a.num * b.den + b.num * a.den, a.den * b.den⟩

/-- Exact multiplication of fractions. -/
def mul (a b : Frac) : Frac := ⟨a.num * b.num, a.den * b.den⟩

/-- Exact division of fractions (used only with positive divisors). -/
def div (a b : Frac) : Frac := ⟨a.num * b.den, a.den * b.num⟩

/-- Strict comparison by cross-multiplication (denominators positive). -/
def blt (a b : Frac) : Bool := a.num * b.den < b.num * a.den

/-- Value equality of fractions (cross-multiplication; denominators
positive). -/
def eqv (a b : Frac) : Prop := a.num * b.den = b.num * a.den

instance (a b : Frac) : Decidable (a.eqv b) := by unfold eqv; infer_instance

/-- Value order on fractions with positive denominators
(cross-multiplication). -/
def le (a b : Frac) : Prop := a.num * b.den ≤ b.num * a.den

instance (a b : Frac) : Decidable (a.le b) := by unfold le; infer_instance

/-- Floor of a fraction with positive denominator. -/
def floor (a : Frac) : ℤ := Int.fdiv a.num a.den

/-- Truncation toward zero, the behaviour of Python `int()`. -/
def trunc (a : Frac) : ℤ := Int.tdiv a.num a.den

/-- Round to the nearest integer, ties to even. -/
def rhe (q : Frac) : ℤ :=
  let n := q.floor
  let r := q.num - n * q.den
  if 2 * r < q.den then n
  else if q.den < 2 * r then n + 1
  else if n % 2 = 0 then n else n + 1

/-- Round to the nearest integer, ties upward (half-up):
`⌊q + 1/2⌋`. -/
def rhu (q : Frac) : ℤ := Int.fdiv (2 * q.num + q.den) (2 * q.den)

/-- Absolute value of a fraction with positive denominator. -/
def fabs (q : Frac) : Frac := ⟨|q.num|, q.den⟩

/-- Fueled loop computing ⌊log₂ q⌋ for q ≥ 1 by repeated halving. -/
def log2Up : ℕ → Frac → ℤ
  | 0, _ => 0
  | f + 1, q => if q.blt ⟨2, 1⟩ then 0 else log2Up f ⟨q.num, q.den * 2⟩ + 1

/-- Fueled loop computing ⌊log₂ q⌋ for 0 < q < 1 by repeated doubling. -/
def log2Down : ℕ → Frac → ℤ
  | 0, _ => 0
  | f + 1, q => if q.blt ⟨1, 1⟩ then log2Down f ⟨q.num * 2, q.den⟩ - 1 else 0

/-- Binade exponent ⌊log₂ q⌋ of a positive fraction.  The fuel bounds
are generous: for q ≥ 1 at most log₂ q ≤ |num| halvings are needed, and
for q < 1 at most log₂ den + 1 ≤ den + 1 doublings. -/
def log2 (q : Frac) : ℤ :=
  if q.blt ⟨1, 1⟩ then log2Down (q.den.natAbs + 1) q
  else log2Up (q.num.natAbs + 1) q

/-- Round an exact fraction to the nearest binary64 value (53-bit
significand, round-to-nearest ties-to-even).  Faithful on the normal
range, which covers every value arising in this development. -/
def fl (q : Frac) : Frac :=
  if q.num = 0 then ⟨0, 1⟩
  else
    let e := log2 q.fabs
    let s := (52 : ℤ) - e
    if 0 ≤ s then
      ⟨rhe ⟨q.num * 2 ^ s.toNat, q.den⟩, 2 ^ s.toNat⟩
    else
      ⟨rhe ⟨q.num, q.den * 2 ^ (-s).toNat⟩ * 2 ^ (-s).toNat, 1⟩

end Frac

/-- Binary64 addition: exact sum, then rounding. -/
def fadd (x y : Frac) : Frac := Frac.fl (x.add y)

/-- Binary64 multiplication: exact product, then rounding. -/
def fmul (x y : Frac) : Frac := Frac.fl (x.mul y)

/-- Binary64 division: exact quotient, then rounding. -/
def fdiv (x y : Frac) : Frac := Frac.fl (x.div y)

/-- The binary64 value denoted by a decimal literal of the Python
source (round-to-nearest conversion of the decimal value). -/
def pyfloat (q : Frac) : Frac := Frac.fl q

/-- Model of `np.mean` on a short array of binary64 values: sequential
sum from a 0.0 accumulator, divided by the length. -/
def np_mean (xs : List Frac) : Frac :=
  fdiv (xs.foldl fadd ⟨0, 1⟩) (pyfloat (Frac.ofInt xs.length))

/-- Model of Python `int()` on a binary64 value: truncation toward
zero. -/
def py_int (q : Frac) : ℤ := q.trunc

/-! ### Embedding of the program

Shallow embedding of `analyze_learning_path` (src/learning_decision.py,
lines 65–128).  The function body is a straight-line sequence of five
rule blocks; each block is embedded as a helper returning exactly the
data the corresponding Python block produces (the appended reasoning
line, the method tag, and the appended score), and
`analyze_learning_path` chains them in source order.  The style block
performs a raw dictionary subscript `style_adaptations[style]`, which
raises `KeyError` for a key not in the dictionary; the embedding
returns `Option` and yields `none` in that case.
-/

/-- Time rule (lines 71–78): reasoning line, `base_method`, appended
score. -/
def time_factor (time : String) : String × String × Frac :=
  if time = "1小时以下" ∨ time = "1-2小时" then
    ("⏰ **时间分析**: 每日可用时间有限，推荐碎片化学习方案", "微学习", pyfloat ⟨7, 10⟩)
  else
    ("⏰ **时间分析**: 每日学习时间充足，适合系统化深度学习", "系统学习", pyfloat ⟨9, 10⟩)

/-- Knowledge rule (lines 81–88): reasoning line, `knowledge_method`,
appended score. -/
def knowledge_factor (level : String) : String × String × Frac :=
  if level = "零基础" ∨ level = "初级" then
    ("🎓 **基础分析**: 当前基础较弱，需要分层渐进式教学", "分层教学", pyfloat ⟨6, 10⟩)
  else
    ("🎓 **基础分析**: 已有扎实基础，适合项目驱动学习", "项目实践", pyfloat ⟨8, 10⟩)

/-- Budget rule (lines 91–102): reasoning line, `budget_method`,
appended score. -/
def budget_factor (budget : ℤ) : String × String × Frac :=
  if budget < 300 then
    ("💰 **预算分析**: 预算有限，优先利用免费优质资源", "免费资源", pyfloat ⟨5, 10⟩)
  else if budget < 1000 then
    ("💰 **预算分析**: 预算适中，可选择性购买付费课程", "付费课程", pyfloat ⟨7, 10⟩)
  else
    ("💰 **预算分析**: 预算充足，推荐高端定制方案", "定制方案", pyfloat ⟨9, 10⟩)

/-- The `style_adaptations` dictionary (lines 105–110), in insertion
order. -/
def style_adaptations : List (String × String) :=
  [("视觉型", "+ 图文视频资料"),
   ("听觉型", "+ 音频课程播客"),
   ("动手型", "+ 实践项目"),
   ("阅读型", "+ 电子书文档")]

/-- Urgency rule (lines 115–120): appended reasoning lines, final
`base_method` (overwritten to 强化训练 when urgent, otherwise the one
handed in from the time rule), appended score. -/
def urgency_factor (urgency base_method : String) : List String × String × Frac :=
  if urgency = "紧急" then
    (["⚡ **紧迫度**: 学习目标紧迫，推荐强化训练模式"], "强化训练", pyfloat ⟨8, 10⟩)
  else
    ([], base_method, pyfloat ⟨6, 10⟩)

/-- Embedding of `analyze_learning_path` (lines 65–128).  Returns
`none` when the style subscript raises `KeyError`; otherwise
`some (recommendation, confidence, reasoning)`. -/
def analyze_learning_path (time level : String) (budget : ℤ)
    (urgency style : String) : Option (String × ℤ × List String) :=
  let t := time_factor time
  let k := knowledge_factor level
  let b := budget_factor budget
  match style_adaptations.lookup style with
  | none => none
  | some _style_adapt =>
    let style_line := "🎨 **风格适配**: 检测到" ++ style ++ "学习偏好"
    let u := urgency_factor urgency t.2.1
    let reasoning := [t.1, k.1, b.1, style_line] ++ u.1
    let recommendation := u.2.1 ++ " + " ++ k.2.1 ++ " + " ++ b.2.1
    let scores := [t.2.2, k.2.2, b.2.2, u.2.2]
    let confidence := py_int (fmul (np_mean scores) (pyfloat ⟨100, 1⟩))
    some (recommendation, confidence, reasoning)

/-- Python substring test `n in h` on code-point lists: `n` occurs
contiguously in `h`. -/
def subList : List Char → List Char → Bool
  | n, [] => n.isEmpty
  | n, c :: t => (headMatch n (c :: t)) || subList n t
where
  /-- Leading-segment match: the first list is an initial segment of
  the second. -/
  headMatch : List Char → List Char → Bool
    | [], _ => true
    | _ :: _, [] => false
    | a :: n, b :: h => a == b && headMatch n h

/-- Python `key in method` for strings. -/
def py_in (key method : String) : Bool := subList key.toList method.toList

/-- The `effectiveness_scores` dictionary (lines 132–136), in
insertion order. -/
def effectiveness_scores : List (String × ℤ) :=
  [("微学习", 70), ("系统学习", 85), ("强化训练", 90),
   ("分层教学", 80), ("项目实践", 85),
   ("免费资源", 65), ("付费课程", 80), ("定制方案", 90)]

/-- Loop body of `calculate_expected_effectiveness` (lines 138–140):
`if key in method: score = max(score, effectiveness_scores[key])`. -/
def eff_step (method : String) (score : ℤ) (p : String × ℤ) : ℤ :=
  if py_in p.1 method then max score p.2 else score

/-- Embedding of `calculate_expected_effectiveness` (lines 130–141):
start from 70 and take the max over every dictionary key occurring as a
substring of the argument. -/
def calculate_expected_effectiveness (method : String) : ℤ :=
  effectiveness_scores.foldl (eff_step method) 70

/-- Embedding of `get_style_analysis` (lines 297–304): dictionary
lookup with the generic default string. -/
def get_style_analysis (style : String) : String :=
  (([("视觉型", "适合视频教程、图表、思维导图等可视化学习材料"),
     ("听觉型", "适合音频课程、播客、讲解录音等听觉学习方式"),
     ("动手型", "适合编程实践、项目制作、实验操作等动手学习"),
     ("阅读型", "适合文档阅读、电子书、技术文章等文字学习")] :
    List (String × String)).lookup style).getD "学习风格分析"

/-- The four time options offered by the sidebar (line 19). -/
def timeOptions : List String := ["1小时以下", "1-2小时", "2-4小时", "4小时以上"]

/-- The four knowledge-level options (line 24). -/
def levelOptions : List String := ["零基础", "初级", "中级", "高级"]

/-- The three urgency options (line 28). -/
def urgencyOptions : List String := ["宽松", "中等", "紧急"]

/-- The four learning-style options (line 29). -/
def styleOptions : List String := ["视觉型", "听觉型", "动手型", "阅读型"]

/-- Confidence of a four-score collection, as the code computes it:
`int(np.mean(scores) * 100)` in binary64 arithmetic. -/
def conf4 (a b c d : Frac) : ℤ :=
  py_int (fmul (np_mean [a, b, c, d]) (pyfloat ⟨100, 1⟩))

/-! ### Spec-side definitions, for refinement comparisons -/

/-- Formulation of the spec sentence for the effectiveness lookup: the
maximum table score among all table keys that are substrings of the
label, defaulting to 70 when none match. -/
def max_match_score (method : String) : ℤ :=
  (((effectiveness_scores.filter fun p => py_in p.1 method).map Prod.snd).foldl
    max 70)

/-- Decimal value of the time rule's score, as the spec reads the
numerals of the source. -/
def time_score_exact (time : String) : Frac :=
  if time = "1小时以下" ∨ time = "1-2小时" then ⟨7, 10⟩ else ⟨9, 10⟩

/-- Decimal value of the knowledge rule's score. -/
def knowledge_score_exact (level : String) : Frac :=
  if level = "零基础" ∨ level = "初级" then ⟨6, 10⟩ else ⟨8, 10⟩

/-- Decimal value of the budget rule's score. -/
def budget_score_exact (budget : ℤ) : Frac :=
  if budget < 300 then ⟨5, 10⟩ else if budget < 1000 then ⟨7, 10⟩ else ⟨9, 10⟩

/-- Decimal value of the urgency rule's score. -/
def urgency_score_exact (urgency : String) : Frac :=
  if urgency = "紧急" then ⟨8, 10⟩ else ⟨6, 10⟩

/-- Formulation of the spec sentence for the confidence: the exact
value `mean(scores) × 100`, computed in exact rational arithmetic. -/
def exact_mean_times100 (scores : List Frac) : Frac :=
  ((scores.foldl Frac.add ⟨0, 1⟩).div ⟨scores.length, 1⟩).mul ⟨100, 1⟩

/-- The five distinct per-rule score values of the source. -/
def rule_scores : List Frac :=
  [pyfloat ⟨5, 10⟩, pyfloat ⟨6, 10⟩, pyfloat ⟨7, 10⟩, pyfloat ⟨8, 10⟩,
   pyfloat ⟨9, 10⟩]

/-- Comparison of the confidence components of two engine results:
both computations succeed and the first confidence is no larger. -/
def conf_le (x y : Option (String × ℤ × List String)) : Prop :=
  ∃ p q, x = some p ∧ y = some q ∧ p.2.1 ≤ q.2.1

/-! ### Validation of the binary64 model -/

/-- The model rounds the literal 0.5 to its binary64 value. -/
lemma pyfloat_05 : (pyfloat ⟨5, 10⟩).eqv ⟨1, 2⟩ := by decide

/-- The model rounds the literal 0.6 to its binary64 value. -/
lemma pyfloat_06 : (pyfloat ⟨6, 10⟩).eqv ⟨5404319552844595, 9007199254740992⟩ := by
  decide

/-- The model rounds the literal 0.7 to its binary64 value. -/
lemma pyfloat_07 : (pyfloat ⟨7, 10⟩).eqv ⟨3152519739159347, 4503599627370496⟩ := by
  decide

/-- The model rounds the literal 0.8 to its binary64 value. -/
lemma pyfloat_08 : (pyfloat ⟨8, 10⟩).eqv ⟨3602879701896397, 4503599627370496⟩ := by
  decide

/-- The model rounds the literal 0.9 to its binary64 value. -/
lemma pyfloat_09 : (pyfloat ⟨9, 10⟩).eqv ⟨8106479329266893, 9007199254740992⟩ := by
  decide

/-! ### Structural facts about the engine -/

/-- Structural description of `analyze_learning_path` when the style
lookup succeeds: the output is assembled from the factor helpers, with
the urgency rule overwriting the base method and appending the fourth
score. -/
lemma analyze_eq (time level : String) (budget : ℤ) (urgency style adapt : String)
    (h : style_adaptations.lookup style = some adapt) :
    analyze_learning_path time level budget urgency style =
      some ((urgency_factor urgency (time_factor time).2.1).2.1 ++ " + " ++
              (knowledge_factor level).2.1 ++ " + " ++ (budget_factor budget).2.1,
            conf4 (time_factor time).2.2 (knowledge_factor level).2.2
              (budget_factor budget).2.2
              (urgency_factor urgency (time_factor time).2.1).2.2,
            [(time_factor time).1, (knowledge_factor level).1, (budget_factor budget).1,
             "🎨 **风格适配**: 检测到" ++ style ++ "学习偏好"] ++
              (urgency_factor urgency (time_factor time).2.1).1) := by
  unfold analyze_learning_path conf4
  rw [h]

/-- An in-domain style is a key of the `style_adaptations` dictionary. -/
lemma style_lookup_isSome (s : String) (hs : s ∈ styleOptions) :
    ∃ a, style_adaptations.lookup s = some a := by
  fin_cases hs <;> exact ⟨_, rfl⟩

/-- A style outside the enumeration misses every dictionary key. -/
lemma style_lookup_none (s : String) (hs : s ∉ styleOptions) :
    style_adaptations.lookup s = none := by
  simp only [styleOptions, List.mem_cons, List.not_mem_nil, or_false, not_or] at hs
  obtain ⟨h1, h2, h3, h4⟩ := hs
  simp [style_adaptations, List.lookup,
    beq_eq_false_iff_ne.mpr h1, beq_eq_false_iff_ne.mpr h2,
    beq_eq_false_iff_ne.mpr h3, beq_eq_false_iff_ne.mpr h4]

/-- The time rule contributes one of the two scores 0.7, 0.9. -/
lemma time_score_mem (t : String) :
    (time_factor t).2.2 ∈ [pyfloat ⟨7, 10⟩, pyfloat ⟨9, 10⟩] := by
  unfold time_factor; split <;> simp

/-- The knowledge rule contributes one of the two scores 0.6, 0.8. -/
lemma knowledge_score_mem (l : String) :
    (knowledge_factor l).2.2 ∈ [pyfloat ⟨6, 10⟩, pyfloat ⟨8, 10⟩] := by
  unfold knowledge_factor; split <;> simp

/-- The budget rule contributes one of the three scores 0.5, 0.7, 0.9. -/
lemma budget_score_mem (b : ℤ) :
    (budget_factor b).2.2 ∈ [pyfloat ⟨5, 10⟩, pyfloat ⟨7, 10⟩, pyfloat ⟨9, 10⟩] := by
  unfold budget_factor; split <;> [skip; split] <;> simp

/-- The urgency rule contributes one of the two scores 0.8, 0.6. -/
lemma urgency_score_mem (u bm : String) :
    (urgency_factor u bm).2.2 ∈ [pyfloat ⟨6, 10⟩, pyfloat ⟨8, 10⟩] := by
  unfold urgency_factor; split <;> simp

/-- The time rule's score lies in the five-value score set. -/
lemma time_score_mem_all (t : String) : (time_factor t).2.2 ∈ rule_scores := by
  unfold time_factor rule_scores; split <;> simp

/-- The knowledge rule's score lies in the five-value score set. -/
lemma knowledge_score_mem_all (l : String) :
    (knowledge_factor l).2.2 ∈ rule_scores := by
  unfold knowledge_factor rule_scores; split <;> simp

/-- The budget rule's score lies in the five-value score set. -/
lemma budget_score_mem_all (b : ℤ) : (budget_factor b).2.2 ∈ rule_scores := by
  unfold budget_factor rule_scores; split <;> [skip; split] <;> simp

/-- The urgency rule's score lies in the five-value score set. -/
lemma urgency_score_mem_all (u bm : String) :
    (urgency_factor u bm).2.2 ∈ rule_scores := by
  unfold urgency_factor rule_scores; split <;> simp

/-- The time rule's binary64 score paired with its decimal reading. -/
lemma time_pair_mem (t : String) :
    ((time_factor t).2.2, time_score_exact t) ∈
      [(pyfloat ⟨7, 10⟩, (⟨7, 10⟩ : Frac)), (pyfloat ⟨9, 10⟩, ⟨9, 10⟩)] := by
  by_cases h : t = "1小时以下" ∨ t = "1-2小时" <;>
    simp [time_factor, time_score_exact, h]

/-- The knowledge rule's binary64 score paired with its decimal
reading. -/
lemma knowledge_pair_mem (l : String) :
    ((knowledge_factor l).2.2, knowledge_score_exact l) ∈
      [(pyfloat ⟨6, 10⟩, (⟨6, 10⟩ : Frac)), (pyfloat ⟨8, 10⟩, ⟨8, 10⟩)] := by
  by_cases h : l = "零基础" ∨ l = "初级" <;>
    simp [knowledge_factor, knowledge_score_exact, h]

/-- The budget rule's binary64 score paired with its decimal reading. -/
lemma budget_pair_mem (b : ℤ) :
    ((budget_factor b).2.2, budget_score_exact b) ∈
      [(pyfloat ⟨5, 10⟩, (⟨5, 10⟩ : Frac)), (pyfloat ⟨7, 10⟩, ⟨7, 10⟩),
       (pyfloat ⟨9, 10⟩, ⟨9, 10⟩)] := by
  by_cases h1 : b < 300
  · simp [budget_factor, budget_score_exact, h1]
  · by_cases h2 : b < 1000 <;> simp [budget_factor, budget_score_exact, h1, h2]

/-- The urgency rule's score does not depend on the base method handed
in from the time rule. -/
lemma urgency_score_irrel (u bm bm' : String) :
    (urgency_factor u bm).2.2 = (urgency_factor u bm').2.2 := by
  unfold urgency_factor; split <;> rfl

/-- The urgency rule's binary64 score paired with its decimal reading. -/
lemma urgency_pair_mem (u bm : String) :
    ((urgency_factor u bm).2.2, urgency_score_exact u) ∈
      [(pyfloat ⟨6, 10⟩, (⟨6, 10⟩ : Frac)), (pyfloat ⟨8, 10⟩, ⟨8, 10⟩)] := by
  by_cases h : u = "紧急" <;>
    simp [urgency_factor, urgency_score_exact, h]

/-! ### Exhaustive facts about the confidence computation -/

/-- Exhaustive bounds for the confidence over the 24 reachable score
combinations. -/
lemma conf4_bounds :
    ∀ a ∈ [pyfloat ⟨7, 10⟩, pyfloat ⟨9, 10⟩],
    ∀ b ∈ [pyfloat ⟨6, 10⟩, pyfloat ⟨8, 10⟩],
    ∀ c ∈ [pyfloat ⟨5, 10⟩, pyfloat ⟨7, 10⟩, pyfloat ⟨9, 10⟩],
    ∀ d ∈ [pyfloat ⟨6, 10⟩, pyfloat ⟨8, 10⟩],
      60 ≤ conf4 a b c d ∧ conf4 a b c d ≤ 85 := by decide

/-- Over every reachable score combination, both standard rounding
rules agree on the exact value `mean × 100`, and the binary64
confidence equals that rounding, except on exactly the two score
quadruples (0.7, 0.6, 0.5, 0.8) and (0.7, 0.6, 0.7, 0.6) — the ones
whose floats sum to 2.5999999999999996 — where it is exactly one
less. -/
lemma conf4_vs_exact :
    ∀ p ∈ [(pyfloat ⟨7, 10⟩, (⟨7, 10⟩ : Frac)), (pyfloat ⟨9, 10⟩, ⟨9, 10⟩)],
    ∀ q ∈ [(pyfloat ⟨6, 10⟩, (⟨6, 10⟩ : Frac)), (pyfloat ⟨8, 10⟩, ⟨8, 10⟩)],
    ∀ r ∈ [(pyfloat ⟨5, 10⟩, (⟨5, 10⟩ : Frac)), (pyfloat ⟨7, 10⟩, ⟨7, 10⟩),
           (pyfloat ⟨9, 10⟩, ⟨9, 10⟩)],
    ∀ w ∈ [(pyfloat ⟨6, 10⟩, (⟨6, 10⟩ : Frac)), (pyfloat ⟨8, 10⟩, ⟨8, 10⟩)],
      Frac.rhe (exact_mean_times100 [p.2, q.2, r.2, w.2]) =
        Frac.rhu (exact_mean_times100 [p.2, q.2, r.2, w.2]) ∧
      (((p.2, q.2, r.2, w.2) =
            ((⟨7, 10⟩ : Frac), (⟨6, 10⟩ : Frac), (⟨5, 10⟩ : Frac), (⟨8, 10⟩ : Frac)) ∨
          (p.2, q.2, r.2, w.2) =
            ((⟨7, 10⟩ : Frac), (⟨6, 10⟩ : Frac), (⟨7, 10⟩ : Frac), (⟨6, 10⟩ : Frac))) →
        conf4 p.1 q.1 r.1 w.1 =
          Frac.rhe (exact_mean_times100 [p.2, q.2, r.2, w.2]) - 1) ∧
      (¬((p.2, q.2, r.2, w.2) =
            ((⟨7, 10⟩ : Frac), (⟨6, 10⟩ : Frac), (⟨5, 10⟩ : Frac), (⟨8, 10⟩ : Frac)) ∨
          (p.2, q.2, r.2, w.2) =
            ((⟨7, 10⟩ : Frac), (⟨6, 10⟩ : Frac), (⟨7, 10⟩ : Frac), (⟨6, 10⟩ : Frac))) →
        conf4 p.1 q.1 r.1 w.1 =
          Frac.rhe (exact_mean_times100 [p.2, q.2, r.2, w.2])) := by decide

/-- Monotonicity of the confidence in the first (time) score, checked
over every reachable combination. -/
lemma conf4_mono_fst :
    ∀ a ∈ [pyfloat ⟨7, 10⟩, pyfloat ⟨9, 10⟩],
    ∀ a' ∈ [pyfloat ⟨7, 10⟩, pyfloat ⟨9, 10⟩],
    ∀ b ∈ [pyfloat ⟨6, 10⟩, pyfloat ⟨8, 10⟩],
    ∀ c ∈ [pyfloat ⟨5, 10⟩, pyfloat ⟨7, 10⟩, pyfloat ⟨9, 10⟩],
    ∀ d ∈ [pyfloat ⟨6, 10⟩, pyfloat ⟨8, 10⟩],
      a.le a' → conf4 a b c d ≤ conf4 a' b c d := by decide

/-- Monotonicity of the confidence in the second (knowledge) score. -/
lemma conf4_mono_snd :
    ∀ a ∈ [pyfloat ⟨7, 10⟩, pyfloat ⟨9, 10⟩],
    ∀ b ∈ [pyfloat ⟨6, 10⟩, pyfloat ⟨8, 10⟩],
    ∀ b' ∈ [pyfloat ⟨6, 10⟩, pyfloat ⟨8, 10⟩],
    ∀ c ∈ [pyfloat ⟨5, 10⟩, pyfloat ⟨7, 10⟩, pyfloat ⟨9, 10⟩],
    ∀ d ∈ [pyfloat ⟨6, 10⟩, pyfloat ⟨8, 10⟩],
      b.le b' → conf4 a b c d ≤ conf4 a b' c d := by decide

/-- Monotonicity of the confidence in the third (budget) score. -/
lemma conf4_mono_thd :
    ∀ a ∈ [pyfloat ⟨7, 10⟩, pyfloat ⟨9, 10⟩],
    ∀ b ∈ [pyfloat ⟨6, 10⟩, pyfloat ⟨8, 10⟩],
    ∀ c ∈ [pyfloat ⟨5, 10⟩, pyfloat ⟨7, 10⟩, pyfloat ⟨9, 10⟩],
    ∀ c' ∈ [pyfloat ⟨5, 10⟩, pyfloat ⟨7, 10⟩, pyfloat ⟨9, 10⟩],
    ∀ d ∈ [pyfloat ⟨6, 10⟩, pyfloat ⟨8, 10⟩],
      c.le c' → conf4 a b c d ≤ conf4 a b c' d := by decide

/-- Monotonicity of the confidence in the fourth (urgency) score. -/
lemma conf4_mono_fth :
    ∀ a ∈ [pyfloat ⟨7, 10⟩, pyfloat ⟨9, 10⟩],
    ∀ b ∈ [pyfloat ⟨6, 10⟩, pyfloat ⟨8, 10⟩],
    ∀ c ∈ [pyfloat ⟨5, 10⟩, pyfloat ⟨7, 10⟩, pyfloat ⟨9, 10⟩],
    ∀ d ∈ [pyfloat ⟨6, 10⟩, pyfloat ⟨8, 10⟩],
    ∀ d' ∈ [pyfloat ⟨6, 10⟩, pyfloat ⟨8, 10⟩],
      d.le d' → conf4 a b c d ≤ conf4 a b c d' := by decide

/-! ### Facts about the effectiveness loop -/

/-- The update loop of the effectiveness lookup computes the same value
as folding `max` over the matching table entries. -/
lemma foldl_eff_step_eq (method : String) :
    ∀ (l : List (String × ℤ)) (a : ℤ),
      l.foldl (eff_step method) a =
        ((l.filter fun p => py_in p.1 method).map Prod.snd).foldl max a := by
  intro l
  induction l with
  | nil => intro a; rfl
  | cons h t ih =>
    intro a
    by_cases hp : py_in h.1 method = true <;>
      simp [List.filter_cons, hp, eff_step, ih]

/-- The effectiveness update loop never decreases its accumulator. -/
lemma le_foldl_eff_step (method : String) :
    ∀ (l : List (String × ℤ)) (a : ℤ), a ≤ l.foldl (eff_step method) a := by
  intro l
  induction l with
  | nil => intro a; exact le_refl a
  | cons h t ih =>
    intro a
    refine le_trans ?_ (ih (eff_step method a h))
    unfold eff_step
    split
    · exact le_max_left a h.2
    · exact le_refl a

/-- The effectiveness update loop stays below any bound dominating the
accumulator and every table value. -/
lemma foldl_eff_step_le (method : String) (m : ℤ) :
    ∀ (l : List (String × ℤ)), (∀ p ∈ l, p.2 ≤ m) →
      ∀ a : ℤ, a ≤ m → l.foldl (eff_step method) a ≤ m := by
  intro l
  induction l with
  | nil => intro _ a ha; exact ha
  | cons h t ih =>
    intro hl a ha
    refine ih (fun p hp => hl p (List.mem_cons_of_mem h hp)) _ ?_
    unfold eff_step
    split
    · exact max_le ha (hl h (List.mem_cons_self h t))
    · exact ha

/-- A matching table entry bounds the effectiveness loop from below. -/
lemma matched_le_foldl_eff_step (method : String) :
    ∀ (l : List (String × ℤ)) (k : String) (v : ℤ), (k, v) ∈ l →
      py_in k method = true → ∀ a : ℤ, v ≤ l.foldl (eff_step method) a := by
  intro l
  induction l with
  | nil => intro k v hm; exact absurd hm (List.not_mem_nil _)
  | cons h t ih =>
    intro k v hm hk a
    rcases List.mem_cons.mp hm with heq | hm'
    · refine le_trans ?_ (le_foldl_eff_step method t (eff_step method a h))
      rw [← heq]
      unfold eff_step
      rw [if_pos hk]
      exact le_max_right a v
    · exact ih k v hm' hk (eff_step method a h)

/-! ### Claims -/

/-- C1, counterexample: on the style value 未知型, outside the
enumeration (all other inputs in-domain), `analyze_learning_path` does
not complete with a result: the dictionary subscript
`style_adaptations[style]` raises `KeyError`, modelled as `none`, so no
fallback string is substituted. -/
theorem c1_counterexample :
    analyze_learning_path "4小时以上" "高级" 1500 "宽松" "未知型" = none := by
  decide

/-- C1, amended: for a style value outside the enumeration,
`analyze_learning_path` fails with `KeyError` (modelled: returns
`none`) rather than completing with a fallback; the
generic-fallback-on-unknown behaviour exists only in the report helper
`get_style_analysis`, which returns the generic string 学习风格分析. -/
theorem c1_unknown_style (t l : String) (b : ℤ) (u s : String)
    (hs : s ∉ styleOptions) :
    analyze_learning_path t l b u s = none ∧
      get_style_analysis s = "学习风格分析" := by
  constructor
  · unfold analyze_learning_path
    rw [style_lookup_none s hs]
  · simp only [styleOptions, List.mem_cons, List.not_mem_nil, or_false,
      not_or] at hs
    obtain ⟨h1, h2, h3, h4⟩ := hs
    simp [get_style_analysis, List.lookup,
      beq_eq_false_iff_ne.mpr h1, beq_eq_false_iff_ne.mpr h2,
      beq_eq_false_iff_ne.mpr h3, beq_eq_false_iff_ne.mpr h4]

/-- C1, witness for the amended claim at the concrete style 未知型. -/
theorem c1_unknown_style_witness :
    "未知型" ∉ styleOptions ∧
      (analyze_learning_path "1小时以下" "中级" 500 "中等" "未知型" = none ∧
        get_style_analysis "未知型" = "学习风格分析") :=
  ⟨by decide, c1_unknown_style "1小时以下" "中级" 500 "中等" "未知型" (by decide)⟩

/-- C2, counterexample: at (1小时以下, 零基础, 100, 紧急, 阅读型) the
code returns confidence 64, while `round(mean × 100)` of the collected
scores 0.7, 0.6, 0.5, 0.8 is 65 under round-half-to-even and under
round-half-up alike, so the confidence matches neither consistent
rounding rule. -/
theorem c2_counterexample :
    (analyze_learning_path "1小时以下" "零基础" 100 "紧急" "阅读型").map
        (fun r => r.2.1) = some 64 ∧
      Frac.rhe (exact_mean_times100 [⟨7, 10⟩, ⟨6, 10⟩, ⟨5, 10⟩, ⟨8, 10⟩]) = 65 ∧
      Frac.rhu (exact_mean_times100 [⟨7, 10⟩, ⟨6, 10⟩, ⟨5, 10⟩, ⟨8, 10⟩]) = 65 := by
  decide

/-- C2, amended: for every in-domain input, the computation succeeds
and the confidence equals `round(mean(scores) × 100)` — on which
round-half-to-even and round-half-up agree — for every score
combination except exactly the quadruples (0.7, 0.6, 0.5, 0.8) and
(0.7, 0.6, 0.7, 0.6), where `int()` truncating the binary64 product
makes it exactly one less than the rounded value. -/
theorem c2_confidence_rounding (t l : String) (b : ℤ) (u s : String)
    (ht : t ∈ timeOptions) (hl : l ∈ levelOptions)
    (hb0 : 0 ≤ b) (hb1 : b ≤ 2000)
    (hu : u ∈ urgencyOptions) (hs : s ∈ styleOptions) :
    ∃ label c rs, analyze_learning_path t l b u s = some (label, c, rs) ∧
      Frac.rhe (exact_mean_times100 [time_score_exact t, knowledge_score_exact l,
          budget_score_exact b, urgency_score_exact u]) =
        Frac.rhu (exact_mean_times100 [time_score_exact t, knowledge_score_exact l,
          budget_score_exact b, urgency_score_exact u]) ∧
      (((time_score_exact t, knowledge_score_exact l, budget_score_exact b,
            urgency_score_exact u) =
            ((⟨7, 10⟩ : Frac), (⟨6, 10⟩ : Frac), (⟨5, 10⟩ : Frac), (⟨8, 10⟩ : Frac)) ∨
          (time_score_exact t, knowledge_score_exact l, budget_score_exact b,
            urgency_score_exact u) =
            ((⟨7, 10⟩ : Frac), (⟨6, 10⟩ : Frac), (⟨7, 10⟩ : Frac), (⟨6, 10⟩ : Frac))) →
        c = Frac.rhe (exact_mean_times100 [time_score_exact t,
          knowledge_score_exact l, budget_score_exact b,
          urgency_score_exact u]) - 1) ∧
      (¬((time_score_exact t, knowledge_score_exact l, budget_score_exact b,
            urgency_score_exact u) =
            ((⟨7, 10⟩ : Frac), (⟨6, 10⟩ : Frac), (⟨5, 10⟩ : Frac), (⟨8, 10⟩ : Frac)) ∨
          (time_score_exact t, knowledge_score_exact l, budget_score_exact b,
            urgency_score_exact u) =
            ((⟨7, 10⟩ : Frac), (⟨6, 10⟩ : Frac), (⟨7, 10⟩ : Frac), (⟨6, 10⟩ : Frac))) →
        c = Frac.rhe (exact_mean_times100 [time_score_exact t,
          knowledge_score_exact l, budget_score_exact b,
          urgency_score_exact u])) := by
  obtain ⟨adapt, ha⟩ := style_lookup_isSome s hs
  rw [analyze_eq t l b u s adapt ha]
  have h := conf4_vs_exact _ (time_pair_mem t) _ (knowledge_pair_mem l)
    _ (budget_pair_mem b) _ (urgency_pair_mem u (time_factor t).2.1)
  exact ⟨_, _, _, rfl, h.1, h.2.1, h.2.2⟩

/-- C2, witness for the amended claim at the short-by-one input
(1小时以下, 零基础, 100, 紧急, 阅读型), whose exact score quadruple is
(0.7, 0.6, 0.5, 0.8): the confidence is the rounded value minus one. -/
theorem c2_confidence_rounding_witness :
    ∃ label c rs,
      analyze_learning_path "1小时以下" "零基础" 100 "紧急" "阅读型" =
        some (label, c, rs) ∧
      Frac.rhe (exact_mean_times100 [time_score_exact "1小时以下",
          knowledge_score_exact "零基础", budget_score_exact 100,
          urgency_score_exact "紧急"]) =
        Frac.rhu (exact_mean_times100 [time_score_exact "1小时以下",
          knowledge_score_exact "零基础", budget_score_exact 100,
          urgency_score_exact "紧急"]) ∧
      (((time_score_exact "1小时以下", knowledge_score_exact "零基础",
            budget_score_exact 100, urgency_score_exact "紧急") =
            ((⟨7, 10⟩ : Frac), (⟨6, 10⟩ : Frac), (⟨5, 10⟩ : Frac), (⟨8, 10⟩ : Frac)) ∨
          (time_score_exact "1小时以下", knowledge_score_exact "零基础",
            budget_score_exact 100, urgency_score_exact "紧急") =
            ((⟨7, 10⟩ : Frac), (⟨6, 10⟩ : Frac), (⟨7, 10⟩ : Frac), (⟨6, 10⟩ : Frac))) →
        c = Frac.rhe (exact_mean_times100 [time_score_exact "1小时以下",
          knowledge_score_exact "零基础", budget_score_exact 100,
          urgency_score_exact "紧急"]) - 1) ∧
      (¬((time_score_exact "1小时以下", knowledge_score_exact "零基础",
            budget_score_exact 100, urgency_score_exact "紧急") =
            ((⟨7, 10⟩ : Frac), (⟨6, 10⟩ : Frac), (⟨5, 10⟩ : Frac), (⟨8, 10⟩ : Frac)) ∨
          (time_score_exact "1小时以下", knowledge_score_exact "零基础",
            budget_score_exact 100, urgency_score_exact "紧急") =
            ((⟨7, 10⟩ : Frac), (⟨6, 10⟩ : Frac), (⟨7, 10⟩ : Frac), (⟨6, 10⟩ : Frac))) →
        c = Frac.rhe (exact_mean_times100 [time_score_exact "1小时以下",
          knowledge_score_exact "零基础", budget_score_exact 100,
          urgency_score_exact "紧急"])) :=
  c2_confidence_rounding "1小时以下" "零基础" 100 "紧急" "阅读型"
    (by decide) (by decide) (by decide) (by decide) (by decide) (by decide)

/-- C3, counterexample: on the second worked example the code's
confidence is 64, not the stated 65. -/
theorem c3_counterexample :
    (analyze_learning_path "1小时以下" "零基础" 100 "紧急" "阅读型").map
        (fun r => r.2.1) = some 64 ∧ (64 : ℤ) ≠ 65 := by
  decide

/-- C3, amended: the first worked example is exactly as stated; on the
second, the base method is overwritten to 强化训练 and the other parts
are 分层教学/免费资源 as stated, but the confidence is 64 (the binary64
mean by sequential summation is 64.99999999999999, and `int()`
truncates), not 65. -/
theorem c3_worked_examples :
    analyze_learning_path "4小时以上" "高级" 1500 "宽松" "视觉型" =
      some ("系统学习 + 项目实践 + 定制方案", 80,
        ["⏰ **时间分析**: 每日学习时间充足，适合系统化深度学习",
         "🎓 **基础分析**: 已有扎实基础，适合项目驱动学习",
         "💰 **预算分析**: 预算充足，推荐高端定制方案",
         "🎨 **风格适配**: 检测到视觉型学习偏好"]) ∧
    analyze_learning_path "1小时以下" "零基础" 100 "紧急" "阅读型" =
      some ("强化训练 + 分层教学 + 免费资源", 64,
        ["⏰ **时间分析**: 每日可用时间有限，推荐碎片化学习方案",
         "🎓 **基础分析**: 当前基础较弱，需要分层渐进式教学",
         "💰 **预算分析**: 预算有限，优先利用免费优质资源",
         "🎨 **风格适配**: 检测到阅读型学习偏好",
         "⚡ **紧迫度**: 学习目标紧迫，推荐强化训练模式"]) := by
  decide

/-- C4, confirmed: the budget rule partitions [0, 2000] at 300 and
1000 with the lower boundary inclusive on the upper side; in
particular budget = 300 selects 付费课程.  (The scores 0.5, 0.7, 0.9
are the binary64 values of the source's literals.) -/
theorem c4_budget_rule (b : ℤ) (h0 : 0 ≤ b) (h1 : b ≤ 2000) :
    (b < 300 → budget_factor b =
      ("💰 **预算分析**: 预算有限，优先利用免费优质资源", "免费资源", pyfloat ⟨5, 10⟩)) ∧
    (300 ≤ b → b < 1000 → budget_factor b =
      ("💰 **预算分析**: 预算适中，可选择性购买付费课程", "付费课程", pyfloat ⟨7, 10⟩)) ∧
    (1000 ≤ b → budget_factor b =
      ("💰 **预算分析**: 预算充足，推荐高端定制方案", "定制方案", pyfloat ⟨9, 10⟩)) ∧
    budget_factor 300 =
      ("💰 **预算分析**: 预算适中，可选择性购买付费课程", "付费课程", pyfloat ⟨7, 10⟩) := by
  refine ⟨fun h => ?_, fun ha hb => ?_, fun h => ?_, by decide⟩
  · simp [budget_factor, h]
  · have h2 : ¬ b < 300 := by omega
    simp [budget_factor, h2, hb]
  · have h2 : ¬ b < 300 := by omega
    have h3 : ¬ b < 1000 := by omega
    simp [budget_factor, h2, h3]

/-- C4, witness at the boundary budget 300. -/
theorem c4_budget_rule_witness :
    budget_factor 300 =
      ("💰 **预算分析**: 预算适中，可选择性购买付费课程", "付费课程", pyfloat ⟨7, 10⟩) :=
  (c4_budget_rule 300 (by decide) (by decide)).2.1 (by decide) (by decide)

/-- C5, confirmed: for every string, `calculate_expected_effectiveness`
equals the maximum table score over the table keys occurring as
substrings (70 when none occur), is at least 70, and a label containing
both 系统学习 and 定制方案 yields 90. -/
theorem c5_effectiveness (m : String) :
    calculate_expected_effectiveness m = max_match_score m ∧
    70 ≤ calculate_expected_effectiveness m ∧
    (py_in "系统学习" m = true → py_in "定制方案" m = true →
      calculate_expected_effectiveness m = 90) := by
  refine ⟨foldl_eff_step_eq m effectiveness_scores 70,
    le_foldl_eff_step m effectiveness_scores 70, fun _ h2 => ?_⟩
  refine le_antisymm ?_ ?_
  · exact foldl_eff_step_le m 90 effectiveness_scores (by decide) 70 (by decide)
  · exact matched_le_foldl_eff_step m effectiveness_scores "定制方案" 90
      (by decide) h2 70

/-- C5, witness on the label composed of 系统学习, 项目实践 and
定制方案. -/
theorem c5_effectiveness_witness :
    py_in "系统学习" "系统学习 + 项目实践 + 定制方案" = true ∧
    py_in "定制方案" "系统学习 + 项目实践 + 定制方案" = true ∧
    calculate_expected_effectiveness "系统学习 + 项目实践 + 定制方案" = 90 :=
  ⟨by decide, by decide,
    (c5_effectiveness "系统学习 + 项目实践 + 定制方案").2.2 (by decide) (by decide)⟩

/-- C6, confirmed: for every in-domain input tuple, if urgency is 紧急
the base method of the returned label is 强化训练 (replacing the time
rule's choice) and the urgency rule contributes score 0.8; otherwise
the base method is exactly the time rule's choice and the urgency rule
contributes score 0.6. -/
theorem c6_urgency_rule (t l : String) (b : ℤ) (u s : String)
    (ht : t ∈ timeOptions) (hl : l ∈ levelOptions)
    (hb0 : 0 ≤ b) (hb1 : b ≤ 2000)
    (hu : u ∈ urgencyOptions) (hs : s ∈ styleOptions) :
    (u = "紧急" →
      analyze_learning_path t l b u s =
        some ("强化训练" ++ " + " ++ (knowledge_factor l).2.1 ++ " + " ++
            (budget_factor b).2.1,
          conf4 (time_factor t).2.2 (knowledge_factor l).2.2
            (budget_factor b).2.2 (pyfloat ⟨8, 10⟩),
          [(time_factor t).1, (knowledge_factor l).1, (budget_factor b).1,
           "🎨 **风格适配**: 检测到" ++ s ++ "学习偏好",
           "⚡ **紧迫度**: 学习目标紧迫，推荐强化训练模式"])) ∧
    (u ≠ "紧急" →
      analyze_learning_path t l b u s =
        some ((time_factor t).2.1 ++ " + " ++ (knowledge_factor l).2.1 ++ " + " ++
            (budget_factor b).2.1,
          conf4 (time_factor t).2.2 (knowledge_factor l).2.2
            (budget_factor b).2.2 (pyfloat ⟨6, 10⟩),
          [(time_factor t).1, (knowledge_factor l).1, (budget_factor b).1,
           "🎨 **风格适配**: 检测到" ++ s ++ "学习偏好"])) := by
  obtain ⟨adapt, ha⟩ := style_lookup_isSome s hs
  rw [analyze_eq t l b u s adapt ha]
  constructor <;> intro h <;> simp [urgency_factor, h]

/-- C6, witness: the urgent branch at a concrete input, with the time
rule's 系统学习 overwritten to 强化训练. -/
theorem c6_urgency_rule_witness :
    analyze_learning_path "4小时以上" "高级" 1500 "紧急" "视觉型" =
      some ("强化训练 + 项目实践 + 定制方案", 85,
        ["⏰ **时间分析**: 每日学习时间充足，适合系统化深度学习",
         "🎓 **基础分析**: 已有扎实基础，适合项目驱动学习",
         "💰 **预算分析**: 预算充足，推荐高端定制方案",
         "🎨 **风格适配**: 检测到视觉型学习偏好",
         "⚡ **紧迫度**: 学习目标紧迫，推荐强化训练模式"]) := by
  have h := (c6_urgency_rule "4小时以上" "高级" 1500 "紧急" "视觉型"
    (by decide) (by decide) (by decide) (by decide) (by decide) (by decide)).1 rfl
  exact h.trans (by decide)

/-- C7, confirmed: for every in-domain input tuple the computation
succeeds and the returned confidence is an integer in [0, 100]. -/
theorem c7_confidence_range (t l : String) (b : ℤ) (u s : String)
    (ht : t ∈ timeOptions) (hl : l ∈ levelOptions)
    (hb0 : 0 ≤ b) (hb1 : b ≤ 2000)
    (hu : u ∈ urgencyOptions) (hs : s ∈ styleOptions) :
    ∃ label c rs, analyze_learning_path t l b u s = some (label, c, rs) ∧
      0 ≤ c ∧ c ≤ 100 := by
  obtain ⟨adapt, ha⟩ := style_lookup_isSome s hs
  rw [analyze_eq t l b u s adapt ha]
  have h := conf4_bounds _ (time_score_mem t) _ (knowledge_score_mem l)
    _ (budget_score_mem b) _ (urgency_score_mem u (time_factor t).2.1)
  exact ⟨_, _, _, rfl, by omega, by omega⟩

/-- C7, witness at a concrete in-domain input. -/
theorem c7_confidence_range_witness :
    ∃ label c rs,
      analyze_learning_path "2-4小时" "中级" 500 "中等" "动手型" =
        some (label, c, rs) ∧ 0 ≤ c ∧ c ≤ 100 :=
  c7_confidence_range "2-4小时" "中级" 500 "中等" "动手型"
    (by decide) (by decide) (by decide) (by decide) (by decide) (by decide)

/-- C8, confirmed: `analyze_learning_path` is deterministic — it is a
pure function of its input tuple, so identical tuples yield identical
output triples. -/
theorem c8_deterministic (t l : String) (b : ℤ) (u s : String)
    (t' l' : String) (b' : ℤ) (u' s' : String)
    (h : (t, l, b, u, s) = (t', l', b', u', s')) :
    analyze_learning_path t l b u s = analyze_learning_path t' l' b' u' s' := by
  cases h; rfl

/-- C8, witness at a concrete repeated input tuple. -/
theorem c8_deterministic_witness :
    (("1小时以下", "零基础", (100 : ℤ), "紧急", "阅读型") =
        ("1小时以下", "零基础", (100 : ℤ), "紧急", "阅读型")) ∧
      analyze_learning_path "1小时以下" "零基础" 100 "紧急" "阅读型" =
        analyze_learning_path "1小时以下" "零基础" 100 "紧急" "阅读型" :=
  ⟨rfl, c8_deterministic "1小时以下" "零基础" 100 "紧急" "阅读型"
    "1小时以下" "零基础" 100 "紧急" "阅读型" rfl⟩

/-- C9, confirmed: holding all other inputs fixed, changing one input
so that its rule's contributed score is larger (in value order) never
decreases the returned confidence — for each of the four
score-contributing rules. -/
theorem c9_monotone (t t' l l' : String) (b b' : ℤ) (u u' s : String)
    (ht : t ∈ timeOptions) (ht' : t' ∈ timeOptions)
    (hl : l ∈ levelOptions) (hl' : l' ∈ levelOptions)
    (hb0 : 0 ≤ b) (hb1 : b ≤ 2000) (hb0' : 0 ≤ b') (hb1' : b' ≤ 2000)
    (hu : u ∈ urgencyOptions) (hu' : u' ∈ urgencyOptions)
    (hs : s ∈ styleOptions) :
    ((time_factor t).2.2.le (time_factor t').2.2 →
      conf_le (analyze_learning_path t l b u s)
        (analyze_learning_path t' l b u s)) ∧
    ((knowledge_factor l).2.2.le (knowledge_factor l').2.2 →
      conf_le (analyze_learning_path t l b u s)
        (analyze_learning_path t l' b u s)) ∧
    ((budget_factor b).2.2.le (budget_factor b').2.2 →
      conf_le (analyze_learning_path t l b u s)
        (analyze_learning_path t l b' u s)) ∧
    ((urgency_factor u (time_factor t).2.1).2.2.le
        (urgency_factor u' (time_factor t).2.1).2.2 →
      conf_le (analyze_learning_path t l b u s)
        (analyze_learning_path t l b u' s)) := by
  obtain ⟨adapt, ha⟩ := style_lookup_isSome s hs
  refine ⟨fun hle => ?_, fun hle => ?_, fun hle => ?_, fun hle => ?_⟩
  · rw [analyze_eq t l b u s adapt ha, analyze_eq t' l b u s adapt ha]
    refine ⟨_, _, rfl, rfl, ?_⟩
    show conf4 (time_factor t).2.2 (knowledge_factor l).2.2
        (budget_factor b).2.2 (urgency_factor u (time_factor t).2.1).2.2 ≤
      conf4 (time_factor t').2.2 (knowledge_factor l).2.2
        (budget_factor b).2.2 (urgency_factor u (time_factor t').2.1).2.2
    rw [urgency_score_irrel u (time_factor t').2.1 (time_factor t).2.1]
    exact conf4_mono_fst _ (time_score_mem t) _ (time_score_mem t')
      _ (knowledge_score_mem l) _ (budget_score_mem b)
      _ (urgency_score_mem u (time_factor t).2.1) hle
  · rw [analyze_eq t l b u s adapt ha, analyze_eq t l' b u s adapt ha]
    exact ⟨_, _, rfl, rfl,
      conf4_mono_snd _ (time_score_mem t) _ (knowledge_score_mem l)
        _ (knowledge_score_mem l') _ (budget_score_mem b)
        _ (urgency_score_mem u (time_factor t).2.1) hle⟩
  · rw [analyze_eq t l b u s adapt ha, analyze_eq t l b' u s adapt ha]
    exact ⟨_, _, rfl, rfl,
      conf4_mono_thd _ (time_score_mem t) _ (knowledge_score_mem l)
        _ (budget_score_mem b) _ (budget_score_mem b')
        _ (urgency_score_mem u (time_factor t).2.1) hle⟩
  · rw [analyze_eq t l b u s adapt ha, analyze_eq t l b u' s adapt ha]
    exact ⟨_, _, rfl, rfl,
      conf4_mono_fth _ (time_score_mem t) _ (knowledge_score_mem l)
        _ (budget_score_mem b) _ (urgency_score_mem u (time_factor t).2.1)
        _ (urgency_score_mem u' (time_factor t).2.1) hle⟩

/-- C9, witness: raising the time score from 0.7 to 0.9 at a concrete
input does not decrease the confidence. -/
theorem c9_monotone_witness :
    (time_factor "1小时以下").2.2.le (time_factor "4小时以上").2.2 ∧
      conf_le (analyze_learning_path "1小时以下" "零基础" 100 "宽松" "视觉型")
        (analyze_learning_path "4小时以上" "零基础" 100 "宽松" "视觉型") :=
  ⟨by decide,
    (c9_monotone "1小时以下" "4小时以上" "零基础" "零基础" 100 100 "宽松" "宽松"
        "视觉型" (by decide) (by decide) (by decide) (by decide) (by decide)
        (by decide) (by decide) (by decide) (by decide) (by decide)
        (by decide)).1 (by decide)⟩

/-- C10, confirmed: for every in-domain input tuple exactly four rules
contribute a score (time, knowledge, budget, urgency — the style rule
contributes none: the confidence is `conf4` of four scores independent
of the style argument), each contributed score is one of the five
values 0.5–0.9, and the confidence lies in [60, 85]. -/
theorem c10_score_invariants (t l : String) (b : ℤ) (u s : String)
    (ht : t ∈ timeOptions) (hl : l ∈ levelOptions)
    (hb0 : 0 ≤ b) (hb1 : b ≤ 2000)
    (hu : u ∈ urgencyOptions) (hs : s ∈ styleOptions) :
    ∃ label rs s1 s2 s3 s4,
      analyze_learning_path t l b u s = some (label, conf4 s1 s2 s3 s4, rs) ∧
      s1 ∈ rule_scores ∧ s2 ∈ rule_scores ∧ s3 ∈ rule_scores ∧
      s4 ∈ rule_scores ∧
      60 ≤ conf4 s1 s2 s3 s4 ∧ conf4 s1 s2 s3 s4 ≤ 85 := by
  obtain ⟨adapt, ha⟩ := style_lookup_isSome s hs
  rw [analyze_eq t l b u s adapt ha]
  have h := conf4_bounds _ (time_score_mem t) _ (knowledge_score_mem l)
    _ (budget_score_mem b) _ (urgency_score_mem u (time_factor t).2.1)
  exact ⟨_, _, _, _, _, _, rfl, time_score_mem_all t, knowledge_score_mem_all l,
    budget_score_mem_all b, urgency_score_mem_all u (time_factor t).2.1,
    h.1, h.2⟩

/-- C10, witness at a concrete in-domain input. -/
theorem c10_score_invariants_witness :
    ∃ label rs s1 s2 s3 s4,
      analyze_learning_path "1-2小时" "初级" 0 "宽松" "听觉型" =
        some (label, conf4 s1 s2 s3 s4, rs) ∧
      s1 ∈ rule_scores ∧ s2 ∈ rule_scores ∧ s3 ∈ rule_scores ∧
      s4 ∈ rule_scores ∧
      60 ≤ conf4 s1 s2 s3 s4 ∧ conf4 s1 s2 s3 s4 ≤ 85 :=
  c10_score_invariants "1-2小时" "初级" 0 "宽松" "听觉型"
    (by decide) (by decide) (by decide) (by decide) (by decide) (by decide)

end LearningDecision
